import Mathlib

/-!
# Verification of the pressure-vessel material-property core

Shallow embedding of `getMaterialProperties` from `pressureVessel.py` and
theorems about it.  The numeric pipeline is modelled over the real numbers;
every place where the Python runtime would raise an exception (division by
zero, `math.log` of a non-positive argument, a list index out of range, use
of an unassigned local variable, a failed node lookup) is modelled as an
explicit error value of type `PVError`, so the embedded functions return
`Except PVError _`.
-/

namespace PressureVessel

noncomputable section

/-- Error kinds.  The first five name the runtime failures the source can
actually raise, under the names the design spec gives them:
* `invalidGeometry` — empty connectivity (zero division in the centroid
  average) or a node label absent from the part's node table;
* `degenerateSource` — the `ZeroDivisionError` raised by
  `Phi_reactor*1.52**2/distanceFromSource**2` when the centroid coincides
  with the source;
* `domainError` — the `ValueError` raised by `math.log` on a non-positive
  argument;
* `indexError` — the `IndexError` raised by reading `dpa_table[i+1]` past
  the end of the table;
* `unboundLocal` — the `UnboundLocalError` raised by using `interpBin`
  when the bracket loop finished without assigning it.
`outOfRange` is the dedicated defensive-check error named in the spec's
error-handling design for a dose outside [0, 3] reaching the interpolation
step; the observed source contains no such check and never produces it. -/
inductive PVError where
  | invalidGeometry
  | degenerateSource
  | domainError
  | indexError
  | unboundLocal
  | outOfRange
  deriving DecidableEq

/-- Reactor flux constant, `Phi_reactor = 1.25e18  # [1/(cm^2*yr)]`. -/
def Phi_reactor : ℝ := 1.25e18

/-- Damage cross-section, `sigmaBar_d = 249.24*1e-24  # [cm^2]`. -/
def sigmaBar_d : ℝ := 249.24 * 1e-24

/-- Young's modulus constant, `youngsModulus = 209E9`. -/
def youngsModulus : ℝ := 209e9

/-- Poisson ratio constant, `poissonsRatio = 0.3`. -/
def poissonsRatio : ℝ := 0.3

/-- Dose breakpoints, `dpa_table = [0.0, 0.4, 1.25, 3.0]`. -/
def dpa_table : List ℝ := [0.0, 0.4, 1.25, 3.0]

/-- Ultimate-stress table, `UT_table = [500.0e6, 680.0e6, 760.0e6, 790.0e6]`. -/
def UT_table : List ℝ := [500.0e6, 680.0e6, 760.0e6, 790.0e6]

/-- Ultimate-strain table, `UE_table = [.48, .1, .06, .005]`. -/
def UE_table : List ℝ := [0.48, 0.1, 0.06, 0.005]

/-! ## Centroid -/

/-- The node-coordinate collection loop
`for n in elementNodeLabels: coords.append(nodes.getFromLabel(n+1).coordinates)`:
each connectivity entry `n` is resolved through the node table at label
`n + 1`; a missing label is the runtime lookup failure, reported as
`invalidGeometry`. -/
def lookupCoords (connectivity : List ℕ) (nodes : ℕ → Option (Fin 3 → ℝ)) :
    Except PVError (List (Fin 3 → ℝ)) :=
  match connectivity with
  | [] => Except.ok []
  | n :: rest =>
    match nodes (n + 1) with
    | none => Except.error PVError.invalidGeometry
    | some c =>
      match lookupCoords rest nodes with
      | Except.error e => Except.error e
      | Except.ok cs => Except.ok (c :: cs)

/-- `centroid[i] = sum([c[i] for c in coords])/len(elementNodeLabels)`:
the per-axis arithmetic mean of the looked-up coordinates.  An empty
connectivity would divide by zero, reported as `invalidGeometry`. -/
def computeCentroid (connectivity : List ℕ) (nodes : ℕ → Option (Fin 3 → ℝ)) :
    Except PVError (Fin 3 → ℝ) :=
  match lookupCoords connectivity nodes with
  | Except.error e => Except.error e
  | Except.ok coords =>
    if connectivity.length = 0 then Except.error PVError.invalidGeometry
    else Except.ok fun i => ((coords.map fun c => c i).sum) / (connectivity.length : ℝ)

/-! ## Dose -/

/-- `distanceFromSource = sum([(centroid[i]-sourceLocation[i])**2 for i in range(3)])**.5`. -/
def distanceFromSource (centroid sourceLocation : Fin 3 → ℝ) : ℝ :=
  Real.sqrt (∑ i, (centroid i - sourceLocation i) ^ 2)

/-- The unclamped dose: `Phi = Phi_reactor*1.52**2/distanceFromSource**2`
followed by `dpa = Phi*t*sigmaBar_d`. -/
def rawDose (centroid sourceLocation : Fin 3 → ℝ) (t : ℝ) : ℝ :=
  Phi_reactor * (1.52 : ℝ) ^ 2 / (distanceFromSource centroid sourceLocation) ^ 2
    * t * sigmaBar_d

/-- Dose computation with the clamp `if dpa>3.0: dpa=3.0`.  When the
distance is zero the flux division raises `ZeroDivisionError`, the
degenerate-source failure. -/
def computeDose (centroid sourceLocation : Fin 3 → ℝ) (t : ℝ) : Except PVError ℝ :=
  if distanceFromSource centroid sourceLocation = 0 then
    Except.error PVError.degenerateSource
  else
    let dpa := rawDose centroid sourceLocation t
    Except.ok (if dpa > 3.0 then 3.0 else dpa)

/-! ## Yield stress -/

/-- Python's `math.log`: defined for positive arguments, raises a domain
`ValueError` otherwise. -/
def mathLog (x : ℝ) : Except PVError ℝ :=
  if 0 < x then Except.ok (Real.log x) else Except.error PVError.domainError

/-- `if dpa==0.0: sigma_y = 300e6  else: sigma_y = (52.93*log(dpa)+729.5)*1e6`. -/
def sigmaYield (dpa : ℝ) : Except PVError ℝ :=
  if dpa = 0.0 then Except.ok 300e6
  else
    match mathLog dpa with
    | Except.error e => Except.error e
    | Except.ok l => Except.ok ((52.93 * l + 729.5) * 1e6)

/-! ## Bracket search -/

/-- Body of the bracket loop
`for i in range(len(dpa_table)): if dpa>=dpa_table[i] and dpa<=dpa_table[i+1]: interpBin=i; break`
iterated over the remaining index list.  Python's `and` short-circuits, so
`dpa_table[i+1]` (which is out of range at `i = 3`) is only read when
`dpa >= dpa_table[i]` holds; falling off the end of the loop leaves
`interpBin` unassigned, so its first use raises `UnboundLocalError`. -/
def bracketSearch (dpa : ℝ) : List ℕ → Except PVError ℕ
  | [] => Except.error PVError.unboundLocal
  | i :: rest =>
    match dpa_table[i]? with
    | none => Except.error PVError.indexError
    | some lo =>
      if lo ≤ dpa then
        match dpa_table[i + 1]? with
        | none => Except.error PVError.indexError
        | some hi => if dpa ≤ hi then Except.ok i else bracketSearch dpa rest
      else bracketSearch dpa rest

/-- The bracket loop over `range(len(dpa_table))`. -/
def findInterpBin (dpa : ℝ) : Except PVError ℕ :=
  bracketSearch dpa (List.range dpa_table.length)

/-- `x_interp = (dpa-dpa_table[interpBin])/(dpa_table[interpBin+1]-dpa_table[interpBin])`. -/
def xInterp (dpa : ℝ) (interpBin : ℕ) : Except PVError ℝ :=
  match dpa_table[interpBin]?, dpa_table[interpBin + 1]? with
  | some lo, some hi => Except.ok ((dpa - lo) / (hi - lo))
  | _, _ => Except.error PVError.indexError

/-- `table[interpBin]+x_interp*(table[interpBin+1]-table[interpBin])`, the
linear interpolation step applied to `UT_table` resp. `UE_table`. -/
def interpAt (table : List ℝ) (interpBin : ℕ) (x_interp : ℝ) : Except PVError ℝ :=
  match table[interpBin]?, table[interpBin + 1]? with
  | some lo, some hi => Except.ok (lo + x_interp * (hi - lo))
  | _, _ => Except.error PVError.indexError

/-! ## Material-law synthesis -/

/-- The quantities computed for one element by the material block of
`getMaterialProperties` (source lines 56-79). -/
structure MaterialLaw where
  youngsModulus : ℝ
  poissonsRatio : ℝ
  yieldStress : ℝ
  yieldStrain : ℝ
  ultimateStress : ℝ
  ultimateStrain : ℝ

/-- Dose-to-material-law synthesis: the constants, the yield-stress branch,
`epsilon_y = sigma_y/youngsModulus`, the bracket loop and the two linear
interpolations, in source order. -/
def synthesize (dpa : ℝ) : Except PVError MaterialLaw :=
  match sigmaYield dpa with
  | Except.error e => Except.error e
  | Except.ok sigma_y =>
    match findInterpBin dpa with
    | Except.error e => Except.error e
    | Except.ok interpBin =>
      match xInterp dpa interpBin with
      | Except.error e => Except.error e
      | Except.ok x =>
        match interpAt UT_table interpBin x, interpAt UE_table interpBin x with
        | Except.error e, _ => Except.error e
        | _, Except.error e => Except.error e
        | Except.ok sigma_ut, Except.ok epsilon_ut =>
          Except.ok
            { youngsModulus := youngsModulus
              poissonsRatio := poissonsRatio
              yieldStress := sigma_y
              yieldStrain := sigma_y / youngsModulus
              ultimateStress := sigma_ut
              ultimateStrain := epsilon_ut }

/-- The pair returned by `getMaterialProperties`:
`elasticProperties = (youngsModulus, poissonsRatio)` and
`plasticProperties = ((sigma_y, epsilon_y-epsilon_y),(sigma_ut, epsilon_ut-epsilon_y))`,
keeping the source's `epsilon_y - epsilon_y` idiom. -/
def materialTables (m : MaterialLaw) : (ℝ × ℝ) × ((ℝ × ℝ) × (ℝ × ℝ)) :=
  ((m.youngsModulus, m.poissonsRatio),
   ((m.yieldStress, m.yieldStrain - m.yieldStrain),
    (m.ultimateStress, m.ultimateStrain - m.yieldStrain)))

/-- The whole of `getMaterialProperties(element, part, sourceLocation, t)`:
centroid from connectivity and node table, dose from centroid, material law
from dose. -/
def getMaterialProperties (connectivity : List ℕ) (nodes : ℕ → Option (Fin 3 → ℝ))
    (sourceLocation : Fin 3 → ℝ) (t : ℝ) :
    Except PVError ((ℝ × ℝ) × ((ℝ × ℝ) × (ℝ × ℝ))) :=
  match computeCentroid connectivity nodes with
  | Except.error e => Except.error e
  | Except.ok centroid =>
    match computeDose centroid sourceLocation t with
    | Except.error e => Except.error e
    | Except.ok dpa =>
      match synthesize dpa with
      | Except.error e => Except.error e
      | Except.ok m => Except.ok (materialTables m)

/-! ## Statement-support definitions -/

/-- Closed form of the interpolated ultimate stress on [0, 3], one linear
piece per bracket of `dpa_table`, used to state monotonicity. -/
def utPiecewise (d : ℝ) : ℝ :=
  if d ≤ 0.4 then 500.0e6 + (d - 0.0) / (0.4 - 0.0) * (680.0e6 - 500.0e6)
  else if d ≤ 1.25 then 680.0e6 + (d - 0.4) / (1.25 - 0.4) * (760.0e6 - 680.0e6)
  else 760.0e6 + (d - 1.25) / (3.0 - 1.25) * (790.0e6 - 760.0e6)

/-- Closed form of the interpolated ultimate strain on [0, 3]. -/
def uePiecewise (d : ℝ) : ℝ :=
  if d ≤ 0.4 then 0.48 + (d - 0.0) / (0.4 - 0.0) * (0.1 - 0.48)
  else if d ≤ 1.25 then 0.1 + (d - 0.4) / (1.25 - 0.4) * (0.06 - 0.1)
  else 0.06 + (d - 1.25) / (3.0 - 1.25) * (0.005 - 0.06)

/-- Coordinates of the four-node test element of the spec's centroid
scenario: (0,0,0), (2,0,0), (0,2,0), (0,0,2). -/
def tetraCoord : ℕ → Fin 3 → ℝ
  | 0 => ![0, 0, 0]
  | 1 => ![2, 0, 0]
  | 2 => ![0, 2, 0]
  | _ => ![0, 0, 2]

/-- Node table for the test element, holding the same coordinates under the
one-shifted labels 1, 2, 3, 4. -/
def tetraNodes : ℕ → Option (Fin 3 → ℝ)
  | 1 => some ![0, 0, 0]
  | 2 => some ![2, 0, 0]
  | 3 => some ![0, 2, 0]
  | 4 => some ![0, 0, 2]
  | _ => none

/-! ## Table-lookup facts -/

lemma dpa_range_eq : List.range dpa_table.length = [0, 1, 2, 3] := rfl

lemma dpaT0 : dpa_table[(0 : ℕ)]? = some (0.0 : ℝ) := rfl
lemma dpaT1 : dpa_table[(1 : ℕ)]? = some (0.4 : ℝ) := rfl
lemma dpaT2 : dpa_table[(2 : ℕ)]? = some (1.25 : ℝ) := rfl
lemma dpaT3 : dpa_table[(3 : ℕ)]? = some (3.0 : ℝ) := rfl
lemma dpaT0S : dpa_table[0 + 1]? = some (0.4 : ℝ) := rfl
lemma dpaT1S : dpa_table[1 + 1]? = some (1.25 : ℝ) := rfl
lemma dpaT2S : dpa_table[2 + 1]? = some (3.0 : ℝ) := rfl
lemma dpaT3S : dpa_table[3 + 1]? = none := rfl

lemma utT0 : UT_table[(0 : ℕ)]? = some (500.0e6 : ℝ) := rfl
lemma utT1 : UT_table[(1 : ℕ)]? = some (680.0e6 : ℝ) := rfl
lemma utT2 : UT_table[(2 : ℕ)]? = some (760.0e6 : ℝ) := rfl
lemma utT0S : UT_table[0 + 1]? = some (680.0e6 : ℝ) := rfl
lemma utT1S : UT_table[1 + 1]? = some (760.0e6 : ℝ) := rfl
lemma utT2S : UT_table[2 + 1]? = some (790.0e6 : ℝ) := rfl

lemma ueT0 : UE_table[(0 : ℕ)]? = some (0.48 : ℝ) := rfl
lemma ueT1 : UE_table[(1 : ℕ)]? = some (0.1 : ℝ) := rfl
lemma ueT2 : UE_table[(2 : ℕ)]? = some (0.06 : ℝ) := rfl
lemma ueT0S : UE_table[0 + 1]? = some (0.1 : ℝ) := rfl
lemma ueT1S : UE_table[1 + 1]? = some (0.06 : ℝ) := rfl
lemma ueT2S : UE_table[2 + 1]? = some (0.005 : ℝ) := rfl

/-! ## Bracket-search evaluation -/

lemma findInterpBin_bin0 {d : ℝ} (h0 : (0.0 : ℝ) ≤ d) (h1 : d ≤ 0.4) :
    findInterpBin d = Except.ok 0 := by
  simp only [findInterpBin, dpa_range_eq, bracketSearch, dpaT0, dpaT1, dpaT2, dpaT3, dpaT0S, dpaT1S, dpaT2S, dpaT3S]
  rw [if_pos h0, if_pos h1]

lemma findInterpBin_bin1 {d : ℝ} (h0 : (0.4 : ℝ) < d) (h1 : d ≤ 1.25) :
    findInterpBin d = Except.ok 1 := by
  have g0 : (0.0 : ℝ) ≤ d := by linarith
  have g1 : ¬ d ≤ (0.4 : ℝ) := by linarith
  have g2 : (0.4 : ℝ) ≤ d := le_of_lt h0
  simp only [findInterpBin, dpa_range_eq, bracketSearch, dpaT0, dpaT1, dpaT2, dpaT3, dpaT0S, dpaT1S, dpaT2S, dpaT3S]
  rw [if_pos g0, if_neg g1, if_pos g2, if_pos h1]

lemma findInterpBin_bin2 {d : ℝ} (h0 : (1.25 : ℝ) < d) (h1 : d ≤ 3.0) :
    findInterpBin d = Except.ok 2 := by
  have g0 : (0.0 : ℝ) ≤ d := by linarith
  have g1 : ¬ d ≤ (0.4 : ℝ) := by linarith
  have g2 : (0.4 : ℝ) ≤ d := by linarith
  have g3 : ¬ d ≤ (1.25 : ℝ) := by linarith
  have g4 : (1.25 : ℝ) ≤ d := le_of_lt h0
  simp only [findInterpBin, dpa_range_eq, bracketSearch, dpaT0, dpaT1, dpaT2, dpaT3, dpaT0S, dpaT1S, dpaT2S, dpaT3S]
  rw [if_pos g0, if_neg g1, if_pos g2, if_neg g3, if_pos g4, if_pos h1]

lemma findInterpBin_above (d : ℝ) (h : (3.0 : ℝ) < d) :
    findInterpBin d = Except.error PVError.indexError := by
  have g0 : (0.0 : ℝ) ≤ d := by linarith
  have g1 : ¬ d ≤ (0.4 : ℝ) := by linarith
  have g2 : (0.4 : ℝ) ≤ d := by linarith
  have g3 : ¬ d ≤ (1.25 : ℝ) := by linarith
  have g4 : (1.25 : ℝ) ≤ d := by linarith
  have g5 : ¬ d ≤ (3.0 : ℝ) := by linarith
  have g6 : (3.0 : ℝ) ≤ d := le_of_lt h
  simp only [findInterpBin, dpa_range_eq, bracketSearch, dpaT0, dpaT1, dpaT2, dpaT3, dpaT0S, dpaT1S, dpaT2S, dpaT3S]
  rw [if_pos g0, if_neg g1, if_pos g2, if_neg g3, if_pos g4, if_neg g5, if_pos g6]

lemma findInterpBin_below (d : ℝ) (h : d < (0.0 : ℝ)) :
    findInterpBin d = Except.error PVError.unboundLocal := by
  have g0 : ¬ (0.0 : ℝ) ≤ d := by linarith
  have g1 : ¬ (0.4 : ℝ) ≤ d := by linarith
  have g2 : ¬ (1.25 : ℝ) ≤ d := by linarith
  have g3 : ¬ (3.0 : ℝ) ≤ d := by linarith
  simp only [findInterpBin, dpa_range_eq, bracketSearch, dpaT0, dpaT1, dpaT2, dpaT3, dpaT0S, dpaT1S, dpaT2S, dpaT3S]
  rw [if_neg g0, if_neg g1, if_neg g2, if_neg g3]

/-! ## Synthesis evaluation -/

lemma zeroDot : (0.0 : ℝ) = 0 := by norm_num

lemma sigmaYield_eq {d : ℝ} (h0 : (0.0 : ℝ) ≤ d) :
    sigmaYield d =
      Except.ok (if d = 0.0 then (300e6 : ℝ) else (52.93 * Real.log d + 729.5) * 1e6) := by
  by_cases hd : d = 0.0
  · simp only [sigmaYield, if_pos hd]
  · have hpos : 0 < d := by
      rcases lt_or_eq_of_le h0 with h | h
      · rwa [zeroDot] at h
      · exact absurd h.symm hd
    simp only [sigmaYield, if_neg hd, mathLog, if_pos hpos]

lemma sigmaYield_pos_eq {d : ℝ} (hpos : (0 : ℝ) < d) :
    sigmaYield d = Except.ok ((52.93 * Real.log d + 729.5) * 1e6) := by
  have hd : ¬ d = 0.0 := by rw [zeroDot]; exact ne_of_gt hpos
  simp only [sigmaYield, if_neg hd, mathLog, if_pos hpos]

lemma synthesize_bin0 {d : ℝ} (h0 : (0.0 : ℝ) ≤ d) (h1 : d ≤ 0.4) :
    synthesize d = Except.ok
      { youngsModulus := youngsModulus
        poissonsRatio := poissonsRatio
        yieldStress := if d = 0.0 then (300e6 : ℝ) else (52.93 * Real.log d + 729.5) * 1e6
        yieldStrain :=
          (if d = 0.0 then (300e6 : ℝ) else (52.93 * Real.log d + 729.5) * 1e6) / youngsModulus
        ultimateStress := 500.0e6 + (d - 0.0) / (0.4 - 0.0) * (680.0e6 - 500.0e6)
        ultimateStrain := 0.48 + (d - 0.0) / (0.4 - 0.0) * (0.1 - 0.48) } := by
  simp only [synthesize, sigmaYield_eq h0, findInterpBin_bin0 h0 h1, xInterp, interpAt,
    dpaT0, dpaT0S, utT0, utT0S, ueT0, ueT0S]

lemma synthesize_bin1 {d : ℝ} (h0 : (0.4 : ℝ) < d) (h1 : d ≤ 1.25) :
    synthesize d = Except.ok
      { youngsModulus := youngsModulus
        poissonsRatio := poissonsRatio
        yieldStress := (52.93 * Real.log d + 729.5) * 1e6
        yieldStrain := (52.93 * Real.log d + 729.5) * 1e6 / youngsModulus
        ultimateStress := 680.0e6 + (d - 0.4) / (1.25 - 0.4) * (760.0e6 - 680.0e6)
        ultimateStrain := 0.1 + (d - 0.4) / (1.25 - 0.4) * (0.06 - 0.1) } := by
  have hpos : (0 : ℝ) < d := by nlinarith [h0]
  simp only [synthesize, sigmaYield_pos_eq hpos, findInterpBin_bin1 h0 h1, xInterp, interpAt,
    dpaT1, dpaT1S, utT1, utT1S, ueT1, ueT1S]

lemma synthesize_bin2 {d : ℝ} (h0 : (1.25 : ℝ) < d) (h1 : d ≤ 3.0) :
    synthesize d = Except.ok
      { youngsModulus := youngsModulus
        poissonsRatio := poissonsRatio
        yieldStress := (52.93 * Real.log d + 729.5) * 1e6
        yieldStrain := (52.93 * Real.log d + 729.5) * 1e6 / youngsModulus
        ultimateStress := 760.0e6 + (d - 1.25) / (3.0 - 1.25) * (790.0e6 - 760.0e6)
        ultimateStrain := 0.06 + (d - 1.25) / (3.0 - 1.25) * (0.005 - 0.06) } := by
  have hpos : (0 : ℝ) < d := by nlinarith [h0]
  simp only [synthesize, sigmaYield_pos_eq hpos, findInterpBin_bin2 h0 h1, xInterp, interpAt,
    dpaT2, dpaT2S, utT2, utT2S, ueT2, ueT2S]

lemma synthesize_above {d : ℝ} (h : (3.0 : ℝ) < d) :
    synthesize d = Except.error PVError.indexError := by
  have hpos : (0 : ℝ) < d := by nlinarith [h]
  simp only [synthesize, sigmaYield_pos_eq hpos, findInterpBin_above d h]

lemma synthesize_below {d : ℝ} (h : d < (0.0 : ℝ)) :
    synthesize d = Except.error PVError.domainError := by
  have hneg : d < 0 := by rwa [zeroDot] at h
  have hd : ¬ d = 0.0 := by rw [zeroDot]; exact ne_of_lt hneg
  have hnpos : ¬ (0 : ℝ) < d := not_lt_of_gt hneg
  simp only [synthesize, sigmaYield, if_neg hd, mathLog, if_neg hnpos]

lemma threeDot : (3.0 : ℝ) = 3 := by norm_num

/-! ## Dose lemmas -/

lemma rawDose_nonneg {c s : Fin 3 → ℝ} {t : ℝ} (ht : 0 ≤ t) : 0 ≤ rawDose c s t := by
  have h1 : (0 : ℝ) ≤ Phi_reactor * (1.52 : ℝ) ^ 2 / (distanceFromSource c s) ^ 2 := by
    apply div_nonneg
    · norm_num [Phi_reactor]
    · positivity
  have h2 : (0 : ℝ) ≤ sigmaBar_d := by norm_num [sigmaBar_d]
  unfold rawDose
  exact mul_nonneg (mul_nonneg h1 ht) h2

lemma computeDose_of_ne {c s : Fin 3 → ℝ} {t : ℝ} (hne : distanceFromSource c s ≠ 0) :
    computeDose c s t =
      Except.ok (if rawDose c s t > 3.0 then (3.0 : ℝ) else rawDose c s t) := by
  simp only [computeDose, if_neg hne]

/-! ## Centroid lemmas -/

lemma lookupCoords_eq {conn : List ℕ} {nodes : ℕ → Option (Fin 3 → ℝ)}
    {coordOf : ℕ → Fin 3 → ℝ} (h : ∀ n ∈ conn, nodes (n + 1) = some (coordOf n)) :
    lookupCoords conn nodes = Except.ok (conn.map coordOf) := by
  induction conn with
  | nil => rfl
  | cons n rest ih =>
    have hn := h n (List.mem_cons_self n rest)
    have hrest : ∀ m ∈ rest, nodes (m + 1) = some (coordOf m) :=
      fun m hm => h m (List.mem_cons_of_mem _ hm)
    simp only [lookupCoords, hn, ih hrest, List.map_cons]

lemma computeCentroid_eq {conn : List ℕ} {nodes : ℕ → Option (Fin 3 → ℝ)}
    {coordOf : ℕ → Fin 3 → ℝ} (hne : conn ≠ [])
    (h : ∀ n ∈ conn, nodes (n + 1) = some (coordOf n)) :
    computeCentroid conn nodes =
      Except.ok (fun i => (((conn.map coordOf).map fun c => c i).sum) / (conn.length : ℝ)) := by
  have hlen : ¬ conn.length = 0 := by simpa using hne
  simp only [computeCentroid, lookupCoords_eq h, if_neg hlen]

/-! ## Yield-stress and interpolation closed forms -/

lemma synthesize_yieldStress_pos {d : ℝ} (h0 : 0 < d) (h3 : d ≤ 3) :
    ∃ m, synthesize d = Except.ok m ∧
      m.yieldStress = (52.93 * Real.log d + 729.5) * 1e6 := by
  have hd0 : ¬ d = 0.0 := by rw [zeroDot]; exact ne_of_gt h0
  rcases le_or_lt d 0.4 with hb | hb
  · refine ⟨_, synthesize_bin0 (by rw [zeroDot]; exact le_of_lt h0) hb, ?_⟩
    simp only [if_neg hd0]
  · rcases le_or_lt d 1.25 with hb2 | hb2
    · exact ⟨_, synthesize_bin1 hb hb2, rfl⟩
    · exact ⟨_, synthesize_bin2 hb2 (by rw [threeDot]; exact h3), rfl⟩

lemma synthesize_ut_ue {d : ℝ} (h0 : 0 ≤ d) (h3 : d ≤ 3) :
    ∃ m, synthesize d = Except.ok m ∧
      m.ultimateStress = utPiecewise d ∧ m.ultimateStrain = uePiecewise d := by
  rcases le_or_lt d 0.4 with hb | hb
  · refine ⟨_, synthesize_bin0 (by rw [zeroDot]; exact h0) hb, ?_, ?_⟩
    · simp only [utPiecewise, if_pos hb]
    · simp only [uePiecewise, if_pos hb]
  · have hb' : ¬ d ≤ 0.4 := not_le_of_gt hb
    rcases le_or_lt d 1.25 with hb2 | hb2
    · refine ⟨_, synthesize_bin1 hb hb2, ?_, ?_⟩
      · simp only [utPiecewise, if_neg hb', if_pos hb2]
      · simp only [uePiecewise, if_neg hb', if_pos hb2]
    · have hb2' : ¬ d ≤ 1.25 := not_le_of_gt hb2
      refine ⟨_, synthesize_bin2 hb2 (by rw [threeDot]; exact h3), ?_, ?_⟩
      · simp only [utPiecewise, if_neg hb', if_neg hb2']
      · simp only [uePiecewise, if_neg hb', if_neg hb2']

lemma utPiecewise_strictMono {d1 d2 : ℝ} (h12 : d1 < d2) :
    utPiecewise d1 < utPiecewise d2 := by
  unfold utPiecewise
  split_ifs <;> (ring_nf; nlinarith)

lemma uePiecewise_strictAnti {d1 d2 : ℝ} (h12 : d1 < d2) :
    uePiecewise d2 < uePiecewise d1 := by
  unfold uePiecewise
  split_ifs <;> (ring_nf; nlinarith)

/-! ## Claim theorems -/

/-- **C1**: for every dose in [0, 3.0] the synthesis succeeds and the yield
stress is exactly 300e6 Pa when the dose is 0 (the `dpa == 0.0` branch, no
logarithm evaluated) and (52.93·ln(dose) + 729.5)·1e6 Pa when the dose is
positive. -/
theorem C1_yield_stress_law (d : ℝ) (h0 : 0 ≤ d) (h3 : d ≤ 3) :
    ∃ m, synthesize d = Except.ok m ∧
      m.yieldStress = if d = 0 then (300e6 : ℝ) else (52.93 * Real.log d + 729.5) * 1e6 := by
  by_cases hd : d = 0
  · refine ⟨_, synthesize_bin0 (by rw [zeroDot]; exact h0) (by rw [hd]; norm_num), ?_⟩
    simp [zeroDot, hd]
  · obtain ⟨m, hs, hy⟩ := synthesize_yieldStress_pos (lt_of_le_of_ne h0 (Ne.symm hd)) h3
    exact ⟨m, hs, by rw [hy, if_neg hd]⟩

/-- Witness for C1 at dose 0: the baseline yield stress. -/
theorem C1_witness :
    ∃ m, synthesize 0 = Except.ok m ∧
      m.yieldStress = if (0 : ℝ) = 0 then (300e6 : ℝ) else (52.93 * Real.log 0 + 729.5) * 1e6 :=
  C1_yield_stress_law 0 le_rfl (by norm_num)

/-- **C2**: for positive distance to the source and non-negative exposure
time, the computed dose lies in [0, 3.0], and whenever the raw unclamped
dose exceeds 3.0 the returned dose is exactly 3.0. -/
theorem C2_dose_clamped (c s : Fin 3 → ℝ) (t : ℝ)
    (hd : 0 < distanceFromSource c s) (ht : 0 ≤ t) :
    ∃ v, computeDose c s t = Except.ok v ∧ 0 ≤ v ∧ v ≤ 3 ∧
      (3 < rawDose c s t → v = 3) := by
  have hne : distanceFromSource c s ≠ 0 := ne_of_gt hd
  have hnn : 0 ≤ rawDose c s t := rawDose_nonneg ht
  refine ⟨_, computeDose_of_ne hne, ?_, ?_, ?_⟩
  · split_ifs with h
    · norm_num
    · exact hnn
  · split_ifs with h
    · norm_num
    · have h' := not_lt.mp h
      rw [threeDot] at h'
      exact h'
  · intro hgt
    split_ifs with h
    · exact threeDot
    · exact absurd (by rw [threeDot]; exact hgt) h

/-- Witness for C2 at centroid (0,0,0), source (1,1,1), exposure time 0. -/
theorem C2_witness :
    0 < distanceFromSource (fun _ => 0) (fun _ => 1) ∧
    ∃ v, computeDose (fun _ => 0) (fun _ => 1) 0 = Except.ok v ∧ 0 ≤ v ∧ v ≤ 3 ∧
      (3 < rawDose (fun _ => 0) (fun _ => 1) 0 → v = 3) := by
  have hd : 0 < distanceFromSource (fun _ => (0 : ℝ)) (fun _ => (1 : ℝ)) := by
    unfold distanceFromSource
    rw [show (∑ i : Fin 3, ((fun _ => (0 : ℝ)) i - (fun _ => (1 : ℝ)) i) ^ 2) = 3 by
      norm_num [Fin.sum_univ_three]]
    exact Real.sqrt_pos.mpr (by norm_num)
  exact ⟨hd, C2_dose_clamped _ _ 0 hd le_rfl⟩

/-- **C3**: at each table breakpoint the interpolation reproduces the
tabulated ultimate stress and ultimate strain exactly. -/
theorem C3_breakpoints_exact :
    (∃ m, synthesize 0 = Except.ok m ∧ m.ultimateStress = 500e6 ∧ m.ultimateStrain = 0.48) ∧
    (∃ m, synthesize 0.4 = Except.ok m ∧ m.ultimateStress = 680e6 ∧ m.ultimateStrain = 0.1) ∧
    (∃ m, synthesize 1.25 = Except.ok m ∧ m.ultimateStress = 760e6 ∧ m.ultimateStrain = 0.06) ∧
    (∃ m, synthesize 3 = Except.ok m ∧ m.ultimateStress = 790e6 ∧ m.ultimateStrain = 0.005) := by
  refine ⟨⟨_, synthesize_bin0 (by norm_num) (by norm_num), by norm_num, by norm_num⟩,
          ⟨_, synthesize_bin0 (by norm_num) (by norm_num), by norm_num, by norm_num⟩,
          ⟨_, synthesize_bin1 (by norm_num) (by norm_num), by norm_num, by norm_num⟩,
          ⟨_, synthesize_bin2 (by norm_num) (by norm_num), by norm_num, by norm_num⟩⟩

/-- **C4**: when the centroid coincides with the source (distance zero) the
dose computation fails with the degenerate-source error rather than
producing a value. -/
theorem C4_degenerate_source (c s : Fin 3 → ℝ) (t : ℝ)
    (hd : distanceFromSource c s = 0) :
    computeDose c s t = Except.error PVError.degenerateSource := by
  simp only [computeDose, if_pos hd]

/-- Witness for C4 at the spec scenario: centroid = source = (0,-18,0),
exposure 60 years. -/
theorem C4_witness :
    distanceFromSource ![0, -18, 0] ![0, -18, 0] = 0 ∧
    computeDose ![0, -18, 0] ![0, -18, 0] 60 = Except.error PVError.degenerateSource := by
  have hd : distanceFromSource ![0, -18, 0] ![0, -18, 0] = 0 := by
    simp [distanceFromSource]
  exact ⟨hd, C4_degenerate_source _ _ 60 hd⟩

/-- **C5 counterexample**: at dose 4 the synthesis does fail, but with the
out-of-bounds table read of the bracket loop, not with the dedicated
`outOfRange` defensive-check error the claim names. -/
theorem C5_counterexample :
    synthesize 4 = Except.error PVError.indexError ∧
    synthesize 4 ≠ Except.error PVError.outOfRange := by
  have h := synthesize_above (d := 4) (by norm_num)
  exact ⟨h, by simp [h]⟩

/-- **C5 amended**: for every dose outside [0, 3.0] the synthesis fails, but
not through a dedicated out-of-range check: above 3.0 the bracket loop's
last iteration reads past the end of the dose table (index error), and
below 0 the logarithm fails first (domain error), so the dose never reaches
the interpolation step. -/
theorem C5_amended_failure (d : ℝ) :
    (3 < d → synthesize d = Except.error PVError.indexError) ∧
    (d < 0 → synthesize d = Except.error PVError.domainError) := by
  constructor
  · intro h
    exact synthesize_above (by rw [threeDot]; exact h)
  · intro h
    exact synthesize_below (by rw [zeroDot]; exact h)

/-- Witness for the amended C5 at dose 4. -/
theorem C5_witness :
    (3 : ℝ) < 4 ∧ synthesize 4 = Except.error PVError.indexError :=
  ⟨by norm_num, (C5_amended_failure 4).1 (by norm_num)⟩

/-- **C6**: the centroid resolves each connectivity entry `n` through the
node table at label `n + 1` and is the per-axis arithmetic mean of the
coordinates so obtained, divided by the number of connectivity entries. -/
theorem C6_centroid_off_by_one (conn : List ℕ) (nodes : ℕ → Option (Fin 3 → ℝ))
    (coordOf : ℕ → Fin 3 → ℝ) (hne : conn ≠ [])
    (hlook : ∀ n ∈ conn, nodes (n + 1) = some (coordOf n)) :
    ∃ c, computeCentroid conn nodes = Except.ok c ∧
      ∀ i, c i = ((conn.map fun n => coordOf n i).sum) / (conn.length : ℝ) := by
  refine ⟨_, computeCentroid_eq hne hlook, fun i => ?_⟩
  rw [List.map_map]
  rfl

/-- Witness for C6 on the spec's four-node test element, whose coordinates
are stored under labels shifted by one. -/
theorem C6_witness :
    ([0, 1, 2, 3] : List ℕ) ≠ [] ∧
    (∀ n ∈ ([0, 1, 2, 3] : List ℕ), tetraNodes (n + 1) = some (tetraCoord n)) ∧
    ∃ c, computeCentroid [0, 1, 2, 3] tetraNodes = Except.ok c ∧
      ∀ i, c i = ((([0, 1, 2, 3] : List ℕ).map fun n => tetraCoord n i).sum) /
        (([0, 1, 2, 3] : List ℕ).length : ℝ) := by
  have hlook : ∀ n ∈ ([0, 1, 2, 3] : List ℕ), tetraNodes (n + 1) = some (tetraCoord n) := by
    intro n hn
    fin_cases hn <;> rfl
  exact ⟨by simp, hlook, C6_centroid_off_by_one _ _ tetraCoord (by simp) hlook⟩

/-- **C7**: the yield stress is strictly increasing in the dose on the
positive range (0, 3.0]. -/
theorem C7_yield_monotone (d1 d2 : ℝ) (h1 : 0 < d1) (h12 : d1 < d2) (h2 : d2 ≤ 3) :
    ∃ m1 m2, synthesize d1 = Except.ok m1 ∧ synthesize d2 = Except.ok m2 ∧
      m1.yieldStress < m2.yieldStress := by
  obtain ⟨m1, hs1, hy1⟩ :=
    synthesize_yieldStress_pos h1 (le_of_lt (lt_of_lt_of_le h12 h2))
  obtain ⟨m2, hs2, hy2⟩ := synthesize_yieldStress_pos (lt_trans h1 h12) h2
  refine ⟨m1, m2, hs1, hs2, ?_⟩
  rw [hy1, hy2]
  have hlog := Real.log_lt_log h1 h12
  nlinarith [hlog]

/-- Witness for C7 at doses 1 and 2. -/
theorem C7_witness :
    ∃ m1 m2, synthesize 1 = Except.ok m1 ∧ synthesize 2 = Except.ok m2 ∧
      m1.yieldStress < m2.yieldStress :=
  C7_yield_monotone 1 2 (by norm_num) (by norm_num) (by norm_num)

/-- **C8**: for every dose in [0, 3.0] the bracket loop terminates by
assigning a bin in {0, 1, 2}, so both table indices `interpBin` and
`interpBin + 1` used afterwards are within the four-entry tables: the
out-of-range read at i = 3 and the use of an unassigned `interpBin` are
unreachable. -/
theorem C8_bracket_in_bounds (d : ℝ) (h0 : 0 ≤ d) (h3 : d ≤ 3) :
    ∃ i, findInterpBin d = Except.ok i ∧ i ≤ 2 ∧
      i + 1 < dpa_table.length ∧ i + 1 < UT_table.length ∧ i + 1 < UE_table.length := by
  rcases le_or_lt d 0.4 with hb | hb
  · exact ⟨0, findInterpBin_bin0 (by rw [zeroDot]; exact h0) hb,
      by norm_num, by simp [dpa_table], by simp [UT_table], by simp [UE_table]⟩
  · rcases le_or_lt d 1.25 with hb2 | hb2
    · exact ⟨1, findInterpBin_bin1 hb hb2,
        by norm_num, by simp [dpa_table], by simp [UT_table], by simp [UE_table]⟩
    · exact ⟨2, findInterpBin_bin2 hb2 (by rw [threeDot]; exact h3),
        by norm_num, by simp [dpa_table], by simp [UT_table], by simp [UE_table]⟩

/-- Witness for C8 at dose 2. -/
theorem C8_witness :
    ∃ i, findInterpBin 2 = Except.ok i ∧ i ≤ 2 ∧
      i + 1 < dpa_table.length ∧ i + 1 < UT_table.length ∧ i + 1 < UE_table.length :=
  C8_bracket_in_bounds 2 (by norm_num) (by norm_num)

/-- **C9**: for every positive dose below exp(-729.5/52.93) (about 1.04e-6)
the synthesized yield stress is strictly negative, hence strictly below the
300e6 Pa unirradiated baseline. -/
theorem C9_yield_negative_near_zero (d : ℝ) (h0 : 0 < d)
    (hd : d < Real.exp (-729.5 / 52.93)) :
    ∃ m, synthesize d = Except.ok m ∧ m.yieldStress < 0 ∧ m.yieldStress < 300e6 := by
  have hexp1 : Real.exp (-729.5 / 52.93) < 1 := by
    have h := Real.exp_lt_exp.mpr (show (-729.5 / 52.93 : ℝ) < 0 by norm_num)
    rwa [Real.exp_zero] at h
  have h3 : d ≤ 3 := le_of_lt (lt_trans hd (lt_of_lt_of_le hexp1 (by norm_num)))
  obtain ⟨m, hs, hy⟩ := synthesize_yieldStress_pos h0 h3
  have hlog : Real.log d < -729.5 / 52.93 := by
    have h := Real.log_lt_log h0 hd
    rwa [Real.log_exp] at h
  have hneg : m.yieldStress < 0 := by rw [hy]; nlinarith [hlog]
  exact ⟨m, hs, hneg, lt_trans hneg (by norm_num)⟩

/-- Witness for C9 at dose exp(-15). -/
theorem C9_witness :
    ∃ m, synthesize (Real.exp (-15)) = Except.ok m ∧
      m.yieldStress < 0 ∧ m.yieldStress < 300e6 :=
  C9_yield_negative_near_zero (Real.exp (-15)) (Real.exp_pos _)
    (Real.exp_lt_exp.mpr (by norm_num))

/-- **C10**: on [0, 3.0] the interpolated ultimate stress is strictly
increasing and the interpolated ultimate strain strictly decreasing in the
dose. -/
theorem C10_interp_monotone (d1 d2 : ℝ) (h0 : 0 ≤ d1) (h12 : d1 < d2) (h2 : d2 ≤ 3) :
    ∃ m1 m2, synthesize d1 = Except.ok m1 ∧ synthesize d2 = Except.ok m2 ∧
      m1.ultimateStress < m2.ultimateStress ∧ m2.ultimateStrain < m1.ultimateStrain := by
  obtain ⟨m1, hs1, hut1, hue1⟩ :=
    synthesize_ut_ue h0 (le_of_lt (lt_of_lt_of_le h12 h2))
  obtain ⟨m2, hs2, hut2, hue2⟩ :=
    synthesize_ut_ue (le_of_lt (lt_of_le_of_lt h0 h12)) h2
  exact ⟨m1, m2, hs1, hs2,
    by rw [hut1, hut2]; exact utPiecewise_strictMono h12,
    by rw [hue1, hue2]; exact uePiecewise_strictAnti h12⟩

/-- Witness for C10 at doses 0.2 and 2. -/
theorem C10_witness :
    ∃ m1 m2, synthesize 0.2 = Except.ok m1 ∧ synthesize 2 = Except.ok m2 ∧
      m1.ultimateStress < m2.ultimateStress ∧ m2.ultimateStrain < m1.ultimateStrain :=
  C10_interp_monotone 0.2 2 (by norm_num) (by norm_num) (by norm_num)

end

end PressureVessel
